import Mathlib

/-!
# GRPG content library — formal embedding

Shallow embedding of the GRPG static content library and verification of its
structural invariants.  The repository holds three near-duplicate datasets:

* `src/library.js`          — embedded below in namespace `Library`
* `src/GRPGLibrary0.0.1.js` — embedded in namespace `GRPGLibrary001`
* `src/unnamed/part_000`    — embedded in namespace `Part000`

Each JS object literal is transcribed as a Lean structure literal; JS objects
used as keyed dictionaries become association lists `List (String × _)` in
source order.  The long free-form lore strings of `library.js` (`summary`,
`description`, `mechanics.rulesText`) are not relevant to any structural
invariant and are omitted from that embedding; every identifier, type, tag,
reference field and mechanics key is transcribed verbatim.  The two variant
datasets are transcribed in full, field for field.
-/

/-! ## Shared shapes -/

/-- One entry of a tag dictionary: `{category, description}`. -/
structure TagDef where
  category : String
  description : String
deriving DecidableEq, Repr

/-- A tag dictionary: tag name → definition, in source order. -/
abbrev TagDict := List (String × TagDef)

/-- `grantedBy` block of an ability: the single source record of the ability. -/
structure GrantedBy where
  type : String
  id : String
deriving DecidableEq, Repr

/-- `source` block: `{book, page?}`. -/
structure SourceRef where
  book : String
  page : Option Nat
deriving DecidableEq, Repr

/-- `version` block: `{major, minor}`. -/
structure Version where
  major : Nat
  minor : Nat
deriving DecidableEq, Repr

/-- Element shape of category buckets that are empty in every dataset
(origins, circles, items, professions, and in `library.js` also classes and
traits).  No record of this shape exists in the source; the documented
category-specific fields are omitted because no data exercises them. -/
structure EmptyBucketRec where
  id : String
  type : String
  name : String
  tags : List String
deriving DecidableEq, Repr

/-! ## Generic record view and helper functions

A `RecordView` projects the base fields shared by every record: the key it is
stored under, its `id`, its `type` and its `tags`.  The invariant checkers
below run on lists of `(bucketName, bucketType, views)` triples. -/

/-- Base-field projection of one stored record: dictionary key, `id` field,
`type` field and `tags` array. -/
structure RecordView where
  key : String
  id : String
  type : String
  tags : List String
deriving DecidableEq, Repr

/-- A category bucket seen through `RecordView`: the record type expected in
the bucket, and the views of its records in source order. -/
structure BucketView where
  bucketType : String
  records : List RecordView
deriving DecidableEq, Repr

/-- Look a tag name up in a tag dictionary (first match, as a JS object key). -/
def lookupTag (d : TagDict) (t : String) : Option TagDef :=
  (d.find? (fun p => p.1 == t)).map (·.2)

/-- The `category:` prefix of a tag name: the substring before the first `:`
(the whole string when there is no colon). -/
def tagCategory (t : String) : String :=
  String.mk (t.toList.takeWhile (fun c => c ≠ ':'))

/-- Does the string contain a colon? -/
def hasColon (t : String) : Bool :=
  t.toList.contains ':'

/-- Does the id match the `lowercase-with-dashes` pattern: only lowercase
letters and dashes? -/
def idPatternOK (s : String) : Bool :=
  s.toList.all (fun c => ('a' ≤ c && c ≤ 'z') || c == '-')

/-- The choice-group letter of an `attributeMods` key: `some c` when the key
ends in an underscore followed by the single uppercase letter `c`
(`anyOffenseOrDefense_A` ↦ `some 'A'`), `none` otherwise. -/
def choiceSuffix (k : String) : Option Char :=
  match k.toList.reverse with
  | c :: '_' :: _ => if 'A' ≤ c && c ≤ 'Z' then some c else none
  | _ => none

/-- Every choice group inside one `attributeMods` mapping has at least two
candidate keys: no key carries a `_X` suffix shared by fewer than two keys. -/
def choiceGroupsOK (mods : List (String × Int)) : Bool :=
  let ks := mods.map (·.1)
  ks.all (fun k =>
    match choiceSuffix k with
    | none => true
    | some c => 2 ≤ (ks.filter (fun k2 => choiceSuffix k2 == some c)).length)

/-- Tag closure of a dataset: every tag of every record is a key of the
dataset's tag dictionary. -/
def tagClosure (buckets : List BucketView) (dict : TagDict) : Bool :=
  buckets.all (fun b => b.records.all (fun v =>
    v.tags.all (fun t => (lookupTag dict t).isSome)))

/-- Characterisation used by the amended tag-closure claim for `library.js`:
a tag of a record is a key of the tag dictionary exactly when its category
prefix is `type`. -/
def tagClosureIffType (buckets : List BucketView) (dict : TagDict) : Bool :=
  buckets.all (fun b => b.records.all (fun v =>
    v.tags.all (fun t => (lookupTag dict t).isSome == (tagCategory t == "type"))))

/-- Type-tag agreement of a dataset: every record's `type` field equals its
bucket's record type and its `tags` array contains `"type:" ++ type`. -/
def typeTagAgreement (buckets : List BucketView) : Bool :=
  buckets.all (fun b => b.records.all (fun v =>
    v.type == b.bucketType && v.tags.contains ("type:" ++ v.type)))

/-- Key–id agreement of a dataset: every record is stored under exactly its
own `id` field. -/
def keyIdAgreement (buckets : List BucketView) : Bool :=
  buckets.all (fun b => b.records.all (fun v => v.id == v.key))

/-- All `id` fields of a dataset, across every category bucket, in source
order. -/
def allIds (buckets : List BucketView) : List String :=
  buckets.flatMap (fun b => b.records.map (·.id))

/-- Tag-name syntax of a tag dictionary: every tag name contains a colon and
its entry's `category` field equals the substring before the first colon. -/
def tagDictSyntax (d : TagDict) : Bool :=
  d.all (fun p => hasColon p.1 && (p.2.category == tagCategory p.1))

/-! ## Dataset 1: `src/library.js` -/

namespace Library

/-- `TAG_DEFINITIONS` of `src/library.js`: type tags only. -/
def TAG_DEFINITIONS : TagDict := [
  ("type:race", ⟨"type", "Marks a record as a Race."⟩),
  ("type:class", ⟨"type", "Marks a record as a Class."⟩),
  ("type:circle", ⟨"type", "Marks a record as a Circle."⟩),
  ("type:origin", ⟨"type", "Marks a record as an Origin."⟩),
  ("type:trait", ⟨"type", "Marks a record as an Attribute or an Adventuring Trait (passives)."⟩),
  ("type:ability", ⟨"type", "Marks a record as a Combat or Adventuring Ability."⟩),
  ("type:item", ⟨"type", "Marks a record as an item (weapon, armor, gear, etc.)."⟩),
  ("type:profession", ⟨"type", "Marks a record as a Profession / non-combat role."⟩),
  ("type:condition", ⟨"type", "Marks a record as a Status Condition."⟩)]

/-- `mechanics` block of a race record in `library.js`. -/
structure RaceMechanics where
  attributeMods : List (String × Int)
  baseSpeedFeet : Nat
  innateTraits : List String
  innateAbilities : List String
deriving DecidableEq, Repr

/-- A race record of `library.js` (lore strings omitted). -/
structure Race where
  id : String
  type : String
  name : String
  tags : List String
  mechanics : RaceMechanics
deriving DecidableEq, Repr

/-- `mechanics` block of an ability record in `library.js` (`rulesText`
omitted). -/
structure AbilityMechanics where
  category : String
  cost : Option String := none
  actionType : Option String := none
  range : Option String := none
  duration : Option String := none
  cooldown : Option String := none
deriving DecidableEq, Repr

/-- An ability record of `library.js` (lore strings omitted).  Every ability
in this dataset declares a `grantedBy` block. -/
structure Ability where
  id : String
  type : String
  name : String
  tags : List String
  grantedBy : GrantedBy
  mechanics : AbilityMechanics
deriving DecidableEq, Repr

/-- The `GRPG_LIBRARY` root object of `library.js`. -/
structure Lib where
  tags : TagDict
  races : List (String × Race)
  classes : List (String × EmptyBucketRec)
  origins : List (String × EmptyBucketRec)
  circles : List (String × EmptyBucketRec)
  traits : List (String × EmptyBucketRec)
  abilities : List (String × Ability)
  items : List (String × EmptyBucketRec)
  professions : List (String × EmptyBucketRec)
deriving DecidableEq, Repr

/-- `GRPG_LIBRARY` of `src/library.js`. -/
def GRPG_LIBRARY : Lib := {
  tags := TAG_DEFINITIONS
  races := [
    ("race-tettari",
     { id := "race-tettari", type := "race", name := "Tettari",
       tags := ["type:race"],
       mechanics := {
         attributeMods := [("agility", 2), ("willpower", 2), ("dodgeChance", 5)],
         baseSpeedFeet := 40,
         innateTraits := [],
         innateAbilities := ["ability-tettari-blink", "ability-tettari-stew"] } }),
    ("race-bartusa",
     { id := "race-bartusa", type := "race", name := "Bartusa",
       tags := ["type:race"],
       mechanics := {
         attributeMods := [("strength", 3), ("fortitude", 1), ("parryChance", 5)],
         baseSpeedFeet := 30,
         innateTraits := [],
         innateAbilities := ["ability-unstoppable-charge", "ability-word-of-honor"] } }),
    ("race-astrellidari",
     { id := "race-astrellidari", type := "race", name := "Astrellidari",
       tags := ["type:race"],
       mechanics := {
         attributeMods := [("willpower", 3), ("agility", 1), ("arcaneResistance", 15)],
         baseSpeedFeet := 30,
         innateTraits := [],
         innateAbilities := ["ability-touch-of-the-cosmos", "ability-arcane-intuition"] } }),
    ("race-wulkaran",
     { id := "race-wulkaran", type := "race", name := "Wulkaran",
       tags := ["type:race"],
       mechanics := {
         attributeMods := [("strength", 2), ("fortitude", 2), ("coldResistance", 15)],
         baseSpeedFeet := 30,
         innateTraits := [],
         innateAbilities := ["ability-wulkaran-rage", "ability-wulkaran-senses"] } }),
    ("race-ignium",
     { id := "race-ignium", type := "race", name := "Ignium",
       tags := ["type:race"],
       mechanics := {
         attributeMods := [("fortitude", 2), ("willpower", 2), ("fireResistance", 15)],
         baseSpeedFeet := 30,
         innateTraits := [],
         innateAbilities := ["ability-ignis-unleashed", "ability-fire-in-their-eye"] } }),
    ("race-animation",
     { id := "race-animation", type := "race", name := "Animation",
       tags := ["type:race"],
       mechanics := {
         attributeMods := [("fortitude", 2), ("strength", 1), ("agility", 1), ("bodilyFortification", 15)],
         baseSpeedFeet := 30,
         innateTraits := [],
         innateAbilities := ["ability-living-touch", "ability-spark-of-life"] } }),
    ("race-endari",
     { id := "race-endari", type := "race", name := "Endari",
       tags := ["type:race"],
       mechanics := {
         attributeMods := [("agility", 3), ("willpower", 1), ("criticalChance", 5)],
         baseSpeedFeet := 30,
         innateTraits := [],
         innateAbilities := ["ability-aggressive-surge", "ability-endari-tentacles"] } }),
    ("race-feyrdrin",
     { id := "race-feyrdrin", type := "race", name := "Feyrdrin",
       tags := ["type:race"],
       mechanics := {
         attributeMods := [("willpower", 2), ("agility", 1), ("fortitude", 1), ("natureResistance", 15)],
         baseSpeedFeet := 40,
         innateTraits := [],
         innateAbilities := ["ability-barkskin", "ability-feyrdrin-footing"] } }),
    ("race-geodran",
     { id := "race-geodran", type := "race", name := "Geodran",
       tags := ["type:race"],
       mechanics := {
         attributeMods := [("fortitude", 2), ("strength", 1), ("willpower", 1), ("armor", 5)],
         baseSpeedFeet := 30,
         innateTraits := [],
         innateAbilities := ["ability-earth-tremor", "ability-sensing-tremor"] } }),
    ("race-omr",
     { id := "race-omr", type := "race", name := "Omr",
       tags := ["type:race"],
       mechanics := {
         attributeMods := [("willpower", 2), ("agility", 1), ("strength", 1), ("shadowResistance", 15)],
         baseSpeedFeet := 30,
         innateTraits := [],
         innateAbilities := ["ability-creeping-darkness", "ability-omr-sight"] } }),
    ("race-wildeman",
     { id := "race-wildeman", type := "race", name := "Wildeman",
       tags := ["type:race"],
       mechanics := {
         attributeMods := [("anyAttribute", 3), ("anotherAttribute", 1), ("anyOffenseOrDefense_A", 5), ("coldResistance_A", 15)],
         baseSpeedFeet := 30,
         innateTraits := [],
         innateAbilities := ["ability-primal-roar-novice", "ability-wild-form"] } }),
    ("race-thulhan",
     { id := "race-thulhan", type := "race", name := "Thulhan",
       tags := ["type:race"],
       mechanics := {
         attributeMods := [("willpower", 3), ("fortitude", 1), ("wardChance", 5)],
         baseSpeedFeet := 30,
         innateTraits := [],
         innateAbilities := ["ability-seed-of-paranoia", "ability-thul-speech"] } }),
    ("race-jackal",
     { id := "race-jackal", type := "race", name := "Jackal",
       tags := ["type:race"],
       mechanics := {
         attributeMods := [("willpower", 2), ("agility", 1), ("strength", 1), ("lightResistance", 15)],
         baseSpeedFeet := 30,
         innateTraits := [],
         innateAbilities := ["ability-sun-ray", "ability-deaths-guise"] } })]
  classes := []
  origins := []
  circles := []
  traits := []
  abilities := [
    ("ability-tettari-blink",
     { id := "ability-tettari-blink", type := "ability", name := "Tettari Blink",
       tags := ["type:ability", "category:combat", "source:race-tettari"],
       grantedBy := ⟨"race", "race-tettari"⟩,
       mechanics := { category := "combat", cost := some "No Cost",
                      actionType := some "1 Action", range := some "Self",
                      cooldown := some "6 Turn Cooldown" } }),
    ("ability-tettari-stew",
     { id := "ability-tettari-stew", type := "ability", name := "Tettari Stew",
       tags := ["type:ability", "category:adventuring", "source:race-tettari"],
       grantedBy := ⟨"race", "race-tettari"⟩,
       mechanics := { category := "adventuring" } }),
    ("ability-unstoppable-charge",
     { id := "ability-unstoppable-charge", type := "ability", name := "Unstoppable Charge",
       tags := ["type:ability", "category:combat", "source:race-bartusa"],
       grantedBy := ⟨"race", "race-bartusa"⟩,
       mechanics := { category := "combat", cost := some "No Cost",
                      actionType := some "1 Minor action", range := some "Self",
                      cooldown := some "6 Turn Cooldown" } }),
    ("ability-word-of-honor",
     { id := "ability-word-of-honor", type := "ability", name := "Word of Honor",
       tags := ["type:ability", "category:adventuring", "source:race-bartusa"],
       grantedBy := ⟨"race", "race-bartusa"⟩,
       mechanics := { category := "adventuring" } }),
    ("ability-touch-of-the-cosmos",
     { id := "ability-touch-of-the-cosmos", type := "ability", name := "Touch of the Cosmos",
       tags := ["type:ability", "category:combat", "source:race-astrellidari"],
       grantedBy := ⟨"race", "race-astrellidari"⟩,
       mechanics := { category := "combat", cost := some "No Cost",
                      actionType := some "1 Action", range := some "Melee",
                      cooldown := some "6 Turn Cooldown" } }),
    ("ability-arcane-intuition",
     { id := "ability-arcane-intuition", type := "ability", name := "Arcane Intuition",
       tags := ["type:ability", "category:adventuring", "source:race-astrellidari"],
       grantedBy := ⟨"race", "race-astrellidari"⟩,
       mechanics := { category := "adventuring" } }),
    ("ability-wulkaran-rage",
     { id := "ability-wulkaran-rage", type := "ability", name := "Wulkaran Rage",
       tags := ["type:ability", "category:combat", "source:race-wulkaran"],
       grantedBy := ⟨"race", "race-wulkaran"⟩,
       mechanics := { category := "combat", cost := some "No Cost",
                      actionType := some "1 Minor Action", range := some "Melee",
                      cooldown := some "6 Turn Cooldown" } }),
    ("ability-wulkaran-senses",
     { id := "ability-wulkaran-senses", type := "ability", name := "Wulkaran Senses",
       tags := ["type:ability", "category:adventuring", "source:race-wulkaran"],
       grantedBy := ⟨"race", "race-wulkaran"⟩,
       mechanics := { category := "adventuring" } }),
    ("ability-ignis-unleashed",
     { id := "ability-ignis-unleashed", type := "ability", name := "Ignis Unleashed",
       tags := ["type:ability", "category:combat", "source:race-ignium"],
       grantedBy := ⟨"race", "race-ignium"⟩,
       mechanics := { category := "combat", cost := some "No Cost",
                      actionType := some "1 Action", range := some "Self",
                      cooldown := some "6 Turn Cooldown" } }),
    ("ability-fire-in-their-eye",
     { id := "ability-fire-in-their-eye", type := "ability", name := "Fire in Their Eye",
       tags := ["type:ability", "category:adventuring", "source:race-ignium"],
       grantedBy := ⟨"race", "race-ignium"⟩,
       mechanics := { category := "adventuring" } }),
    ("ability-internal-spark",
     { id := "ability-internal-spark", type := "ability", name := "Living Touch",
       tags := ["type:ability", "category:combat", "source:race-animation"],
       grantedBy := ⟨"race", "race-animation"⟩,
       mechanics := { category := "combat", cost := some "No Cost",
                      actionType := some "1 Action", range := some "Self",
                      cooldown := some "6 Turn Cooldown" } }),
    ("ability-spark-of-life",
     { id := "ability-spark-of-life", type := "ability", name := "Spark of Life",
       tags := ["type:ability", "category:adventuring", "source:race-animation"],
       grantedBy := ⟨"race", "race-animation"⟩,
       mechanics := { category := "adventuring" } }),
    ("ability-aggressive-surge",
     { id := "ability-aggressive-surge", type := "ability", name := "Aggressive Surge",
       tags := ["type:ability", "category:combat", "source:race-endari"],
       grantedBy := ⟨"race", "race-endari"⟩,
       mechanics := { category := "combat", cost := some "No Cost",
                      actionType := some "1 Minor Action", range := some "Self",
                      cooldown := some "3 Turn Cooldown" } }),
    ("ability-endari-tentacles",
     { id := "ability-endari-tentacles", type := "ability", name := "Endari Tentacles",
       tags := ["type:ability", "category:adventuring", "source:race-endari"],
       grantedBy := ⟨"race", "race-endari"⟩,
       mechanics := { category := "adventuring" } }),
    ("ability-barkskin",
     { id := "ability-barkskin", type := "ability", name := "Barkskin",
       tags := ["type:ability", "category:combat", "source:race-feyrdrin"],
       grantedBy := ⟨"race", "race-feyrdrin"⟩,
       mechanics := { category := "combat", cost := some "No Cost",
                      actionType := some "1 Minor Action", range := some "Self",
                      cooldown := some "6 Turn Cooldown",
                      duration := some "the next three turns" } }),
    ("ability-feyrdrin-footing",
     { id := "ability-feyrdrin-footing", type := "ability", name := "Feyrdrin Footing",
       tags := ["type:ability", "category:adventuring", "source:race-feyrdrin"],
       grantedBy := ⟨"race", "race-feyrdrin"⟩,
       mechanics := { category := "adventuring" } }),
    ("ability-earth-tremor",
     { id := "ability-earth-tremor", type := "ability", name := "Earth Tremor",
       tags := ["type:ability", "category:combat", "source:race-geodran"],
       grantedBy := ⟨"race", "race-geodran"⟩,
       mechanics := { category := "combat", cost := some "No Cost",
                      actionType := some "1 Action", range := some "Self",
                      cooldown := some "6 Turn Cooldown" } }),
    ("ability-sensing-tremor",
     { id := "ability-sensing-tremor", type := "ability", name := "Sensing Tremor",
       tags := ["type:ability", "category:adventuring", "source:race-geodran"],
       grantedBy := ⟨"race", "race-geodran"⟩,
       mechanics := { category := "adventuring" } }),
    ("ability-creeping-darkness",
     { id := "ability-creeping-darkness", type := "ability", name := "Creeping Darkness",
       tags := ["type:ability", "category:combat", "source:race-omr"],
       grantedBy := ⟨"race", "race-omr"⟩,
       mechanics := { category := "combat", cost := some "No Cost",
                      actionType := some "1 Action", range := some "Self",
                      cooldown := some "6 Turn Cooldown",
                      duration := some "2 turns" } }),
    ("ability-omr-sight",
     { id := "ability-omr-sight", type := "ability", name := "Omr Sight",
       tags := ["type:ability", "category:adventuring", "source:race-omr"],
       grantedBy := ⟨"race", "race-omr"⟩,
       mechanics := { category := "adventuring" } }),
    ("ability-primal-roar-novice",
     { id := "ability-primal-roar-novice", type := "ability", name := "Primal Roar",
       tags := ["type:ability", "category:combat", "source:race-wildeman"],
       grantedBy := ⟨"race", "race-wildeman"⟩,
       mechanics := { category := "combat", cost := some "No Cost",
                      actionType := some "1 Action", range := some "30 feet",
                      cooldown := some "3 Turn Cooldown" } }),
    ("ability-wild-form",
     { id := "ability-wild-form", type := "ability", name := "Wild Form",
       tags := ["type:ability", "category:adventuring", "source:race-wildeman"],
       grantedBy := ⟨"race", "race-wildeman"⟩,
       mechanics := { category := "adventuring" } }),
    ("ability-seed-of-paranoia",
     { id := "ability-seed-of-paranoia", type := "ability", name := "Seed of Paranoia",
       tags := ["type:ability", "category:combat", "source:race-thulhan"],
       grantedBy := ⟨"race", "race-thulhan"⟩,
       mechanics := { category := "combat", cost := some "No Cost",
                      actionType := some "1 Action", range := some "30 feet",
                      cooldown := some "6 Turn Cooldown" } }),
    ("ability-thul-speech",
     { id := "ability-thul-speech", type := "ability", name := "Thul Speech",
       tags := ["type:ability", "category:adventuring", "source:race-thulhan"],
       grantedBy := ⟨"race", "race-thulhan"⟩,
       mechanics := { category := "adventuring" } }),
    ("ability-sun-ray",
     { id := "ability-sun-ray", type := "ability", name := "Sun Ray",
       tags := ["type:ability", "category:combat", "source:race-jackal"],
       grantedBy := ⟨"race", "race-jackal"⟩,
       mechanics := { category := "combat", cost := some "No Cost",
                      actionType := some "1 Action", range := some "Self",
                      cooldown := some "6 Turn Cooldown" } }),
    ("ability-deaths-guise",
     { id := "ability-deaths-guise", type := "ability", name := "Death’s Guise",
       tags := ["type:ability", "category:adventuring", "source:race-jackal"],
       grantedBy := ⟨"race", "race-jackal"⟩,
       mechanics := { category := "adventuring" } })]
  items := []
  professions := [] }

end Library

/-! ## Variant shape shared by `src/GRPGLibrary0.0.1.js` and
`src/unnamed/part_000`

Both files carry the same record schema (provenance fields `source`,
`version`, `createdAt`, `updatedAt`; no `grantedBy` on abilities), so the
shapes are declared once and each file's data is transcribed separately. -/

/-- `meta` block of the variant datasets. -/
structure MetaBlock where
  schemaVersion : String
  dataVersion : String
  lastUpdated : String
  notes : String
deriving DecidableEq, Repr

/-- `lore` block of a variant race record. -/
structure LoreBlock where
  homeland : String
  cultureNotes : String
  appearanceNotes : String
deriving DecidableEq, Repr

/-- `mechanics` block of a variant race record. -/
structure VRaceMechanics where
  attributeMods : List (String × Int)
  baseSpeed : Nat
  senses : List String
  innateTraits : List String
  innateAbilities : List String
deriving DecidableEq, Repr

/-- A race record of the variant datasets. -/
structure VRace where
  id : String
  type : String
  name : String
  summary : String
  description : String
  tags : List String
  source : SourceRef
  version : Version
  createdAt : String
  updatedAt : String
  mechanics : VRaceMechanics
  lore : LoreBlock
deriving DecidableEq, Repr

/-- `mechanics` block of a variant class record. -/
structure VClassMechanics where
  primaryRoles : List String
  hitDie : String
  resourceModel : String
  startingTraits : List String
  startingAbilities : List String
  progressionNotes : String
deriving DecidableEq, Repr

/-- A class record of the variant datasets. -/
structure VClass where
  id : String
  type : String
  name : String
  summary : String
  description : String
  tags : List String
  source : SourceRef
  version : Version
  createdAt : String
  updatedAt : String
  mechanics : VClassMechanics
deriving DecidableEq, Repr

/-- `mechanics` block of a variant trait record. -/
structure VTraitMechanics where
  rulesText : String
deriving DecidableEq, Repr

/-- A trait record of the variant datasets. -/
structure VTrait where
  id : String
  type : String
  name : String
  summary : String
  description : String
  tags : List String
  source : SourceRef
  version : Version
  createdAt : String
  updatedAt : String
  mechanics : VTraitMechanics
deriving DecidableEq, Repr

/-- `mechanics` block of a variant ability record. -/
structure VAbilityMechanics where
  actionType : String
  range : String
  duration : String
  target : String
  rulesText : String
deriving DecidableEq, Repr

/-- An ability record of the variant datasets (no `grantedBy` field exists in
this schema variant). -/
structure VAbility where
  id : String
  type : String
  name : String
  summary : String
  description : String
  tags : List String
  source : SourceRef
  version : Version
  createdAt : String
  updatedAt : String
  mechanics : VAbilityMechanics
deriving DecidableEq, Repr

/-- The `GRPG_LIBRARY` root object of the variant datasets. -/
structure VLib where
  meta : MetaBlock
  tags : TagDict
  races : List (String × VRace)
  classes : List (String × VClass)
  origins : List (String × EmptyBucketRec)
  circles : List (String × EmptyBucketRec)
  traits : List (String × VTrait)
  abilities : List (String × VAbility)
  items : List (String × EmptyBucketRec)
  professions : List (String × EmptyBucketRec)
deriving DecidableEq, Repr

namespace GRPGLibrary001

/-- `TAG_DEFINITIONS` of `src/GRPGLibrary0.0.1.js`. -/
def TAG_DEFINITIONS : TagDict := [
  ("type:race", ⟨"type", "Marks a record as a Race (e.g., Tettari, Feyrdrin, Wildeman)."⟩),
  ("type:class", ⟨"type", "Marks a record as a Class (e.g., Ranger, Warden, Arcanist)."⟩),
  ("type:origin", ⟨"type", "Marks a record as an Origin / background-style record."⟩),
  ("type:circle", ⟨"type", "Marks a record as a Circle (GRPG magic / specialty groups)."⟩),
  ("type:trait", ⟨"type", "Marks a record as an Adventuring Trait (passive bonuses)."⟩),
  ("type:ability", ⟨"type", "Marks a record as an Adventuring Ability (active moves)."⟩),
  ("type:item", ⟨"type", "Marks a record as an item (weapon, armor, gear, etc.)."⟩),
  ("type:profession", ⟨"type", "Marks a record as a Profession / non-combat role."⟩),
  ("faction:wardens", ⟨"faction", "Belongs to or is strongly associated with the Wardens."⟩),
  ("faction:underground", ⟨"faction", "Tied to underground-focused groups, cultures, or powers."⟩),
  ("faction:neutral", ⟨"faction", "Deliberately neutral / unaffiliated with major factions."⟩),
  ("realm:surface", ⟨"realm", "Primarily associated with surface regions of Daelinar."⟩),
  ("realm:underground", ⟨"realm", "Primarily associated with subterranean regions."⟩),
  ("realm:astral", ⟨"realm", "Associated with astral / Weave / fleet contexts."⟩),
  ("role:martial", ⟨"role", "Focuses on physical combat, weapons, toughness."⟩),
  ("role:skirmisher", ⟨"role", "Mobile, hit-and-run, often ranged or agile melee."⟩),
  ("role:caster", ⟨"role", "Primarily interacts with the Weave / magic systems."⟩),
  ("role:support", ⟨"role", "Buffs allies, debuffs enemies, or controls the field."⟩),
  ("role:utility", ⟨"role", "Primarily provides exploration, social, or non-combat tools."⟩),
  ("tier:basic", ⟨"tier", "Starting-level content, safe for new characters."⟩),
  ("tier:advanced", ⟨"tier", "Mid-level power, requires some character progression."⟩),
  ("tier:elite", ⟨"tier", "High-level / rare content; powerful or campaign-defining."⟩),
  ("status:core", ⟨"status", "Core rulebook content; stable and part of the main game."⟩),
  ("status:playtest", ⟨"status", "Experimental content; subject to change or removal."⟩),
  ("source:core-rulebook", ⟨"source", "Published in the main GRPG Core Rulebook."⟩),
  ("source:supplement:wardens", ⟨"source", "From a Wardens-focused supplement or expansion."⟩)]

/-- `GRPG_LIBRARY` of `src/GRPGLibrary0.0.1.js`. -/
def GRPG_LIBRARY : VLib := {
  meta := {
    schemaVersion := "1.0.0", dataVersion := "0.1.0",
    lastUpdated := "2025-11-24",
    notes := "Initial skeleton for the G RPG Library. Fill categories gradually." }
  tags := TAG_DEFINITIONS
  races := [
    ("race-tettari",
     { id := "race-tettari", type := "race", name := "Tettari",
       summary := "Small, resilient survivors attuned to the broken ley-beasts.",
       description := "The Tettari are nimble survivors shaped by the chaos of ruptured ley-lines. Their sharp eyes and steady hands make them exceptional archers.",
       tags := ["type:race", "realm:surface", "role:skirmisher", "status:core"],
       source := ⟨"Core Rulebook", some 42⟩,
       version := ⟨1, 0⟩,
       createdAt := "2025-11-24", updatedAt := "2025-11-24",
       mechanics := {
         attributeMods := [("agility", 2), ("willpower", 1)],
         baseSpeed := 6,
         senses := ["low-light vision"],
         innateTraits := ["trait-tettari-survivor"],
         innateAbilities := [] },
       lore := {
         homeland := "Shattered Wilds of Daelinar",
         cultureNotes := "Tettari communities prize agility, marksmanship, and clever trickery. Many are drawn into the Wardens as scouts.",
         appearanceNotes := "Short and lean, with bright eyes that seem to track motion before it happens." } })]
  classes := [
    ("class-warden",
     { id := "class-warden", type := "class", name := "Warden",
       summary := "Guardian of the broken wilds, balancing steel, instinct, and Weave.",
       description := "Wardens patrol the fractures of Daelinar, hunting warped beasts and safeguarding settlements. They blend martial prowess with attunement to the land and the Weave.",
       tags := ["type:class", "faction:wardens", "role:martial", "role:utility", "status:core"],
       source := ⟨"Core Rulebook", some 80⟩,
       version := ⟨1, 0⟩,
       createdAt := "2025-11-24", updatedAt := "2025-11-24",
       mechanics := {
         primaryRoles := ["role:martial", "role:utility"],
         hitDie := "d10",
         resourceModel := "vigilance",
         startingTraits := ["trait-hunter-sense"],
         startingAbilities := ["ability-mark-prey"],
         progressionNotes := "Wardens gain new ways to control terrain, hunt ley-twisted creatures, and protect allies as they advance." } })]
  origins := []
  circles := []
  traits := [
    ("trait-tettari-survivor",
     { id := "trait-tettari-survivor", type := "trait", name := "Tettari Survivor",
       summary := "You’re hard to kill and harder to corner.",
       description := "You’ve learned to read danger and slip away before it closes its jaws. Tettari often survive what would annihilate others.",
       tags := ["type:trait", "tier:basic", "realm:surface", "status:core"],
       source := ⟨"Core Rulebook", some 43⟩,
       version := ⟨1, 0⟩,
       createdAt := "2025-11-24", updatedAt := "2025-11-24",
       mechanics := {
         rulesText := "When you would be reduced to 0 vitality by a single hit, you may instead drop to 1 vitality once per rest. In addition, you gain advantage on checks to notice ambushes or environmental hazards." } })]
  abilities := [
    ("ability-mark-prey",
     { id := "ability-mark-prey", type := "ability", name := "Mark Prey",
       summary := "Single out a target and hunt them relentlessly.",
       description := "You fix your attention on a single foe, reading their tells and exploiting every misstep.",
       tags := ["type:ability", "role:skirmisher", "role:martial", "tier:basic", "status:core"],
       source := ⟨"Core Rulebook", some 81⟩,
       version := ⟨1, 0⟩,
       createdAt := "2025-11-24", updatedAt := "2025-11-24",
       mechanics := {
         actionType := "action",
         range := "line of sight",
         duration := "scene",
         target := "one creature you can see",
         rulesText := "Choose a creature you can see and mark it as your prey. While the mark lasts, you gain a bonus to checks and attacks made to track, pursue, or harm that creature. If you mark a new target, the old mark ends." } })]
  items := []
  professions := [] }

end GRPGLibrary001

namespace Part000

/-- `TAG_DEFINITIONS` of `src/unnamed/part_000`. -/
def TAG_DEFINITIONS : TagDict := [
  ("type:race", ⟨"type", "Marks a record as a Race (e.g., Tettari, Feyrdrin, Wildeman)."⟩),
  ("type:class", ⟨"type", "Marks a record as a Class (e.g., Ranger, Warden, Arcanist)."⟩),
  ("type:origin", ⟨"type", "Marks a record as an Origin / background-style record."⟩),
  ("type:circle", ⟨"type", "Marks a record as a Circle (GRPG magic / specialty groups)."⟩),
  ("type:trait", ⟨"type", "Marks a record as an Adventuring Trait (passive bonuses)."⟩),
  ("type:ability", ⟨"type", "Marks a record as an Adventuring Ability (active moves)."⟩),
  ("type:item", ⟨"type", "Marks a record as an item (weapon, armor, gear, etc.)."⟩),
  ("type:profession", ⟨"type", "Marks a record as a Profession / non-combat role."⟩),
  ("faction:wardens", ⟨"faction", "Belongs to or is strongly associated with the Wardens."⟩),
  ("faction:underground", ⟨"faction", "Tied to underground-focused groups, cultures, or powers."⟩),
  ("faction:neutral", ⟨"faction", "Deliberately neutral / unaffiliated with major factions."⟩),
  ("realm:surface", ⟨"realm", "Primarily associated with surface regions of Daelinar."⟩),
  ("realm:underground", ⟨"realm", "Primarily associated with subterranean regions."⟩),
  ("realm:astral", ⟨"realm", "Associated with astral / Weave / fleet contexts."⟩),
  ("role:martial", ⟨"role", "Focuses on physical combat, weapons, toughness."⟩),
  ("role:skirmisher", ⟨"role", "Mobile, hit-and-run, often ranged or agile melee."⟩),
  ("role:caster", ⟨"role", "Primarily interacts with the Weave / magic systems."⟩),
  ("role:support", ⟨"role", "Buffs allies, debuffs enemies, or controls the field."⟩),
  ("role:utility", ⟨"role", "Primarily provides exploration, social, or non-combat tools."⟩),
  ("tier:basic", ⟨"tier", "Starting-level content, safe for new characters."⟩),
  ("tier:advanced", ⟨"tier", "Mid-level power, requires some character progression."⟩),
  ("tier:elite", ⟨"tier", "High-level / rare content; powerful or campaign-defining."⟩),
  ("status:core", ⟨"status", "Core rulebook content; stable and part of the main game."⟩),
  ("status:playtest", ⟨"status", "Experimental content; subject to change or removal."⟩),
  ("source:core-rulebook", ⟨"source", "Published in the main GRPG Core Rulebook."⟩),
  ("source:supplement:wardens", ⟨"source", "From a Wardens-focused supplement or expansion."⟩)]

/-- `window.GRPG_LIBRARY` of `src/unnamed/part_000`. -/
def GRPG_LIBRARY : VLib := {
  meta := {
    schemaVersion := "1.0.0", dataVersion := "0.1.0",
    lastUpdated := "2025-11-24",
    notes := "Initial skeleton for the G RPG Library. Fill categories gradually." }
  tags := TAG_DEFINITIONS
  races := [
    ("race-tettari",
     { id := "race-tettari", type := "race", name := "Tettari",
       summary := "Small, resilient survivors attuned to the broken ley-beasts.",
       description := "The Tettari are nimble survivors shaped by the chaos of ruptured ley-lines. Their sharp eyes and steady hands make them exceptional archers.",
       tags := ["type:race", "realm:surface", "role:skirmisher", "status:core"],
       source := ⟨"Core Rulebook", some 42⟩,
       version := ⟨1, 0⟩,
       createdAt := "2025-11-24", updatedAt := "2025-11-24",
       mechanics := {
         attributeMods := [("agility", 2), ("willpower", 1)],
         baseSpeed := 6,
         senses := ["low-light vision"],
         innateTraits := ["trait-tettari-survivor"],
         innateAbilities := [] },
       lore := {
         homeland := "Shattered Wilds of Daelinar",
         cultureNotes := "Tettari communities prize agility, marksmanship, and clever trickery. Many are drawn into the Wardens as scouts.",
         appearanceNotes := "Short and lean, with bright eyes that seem to track motion before it happens." } })]
  classes := [
    ("class-warden",
     { id := "class-warden", type := "class", name := "Warden",
       summary := "Guardian of the broken wilds, balancing steel, instinct, and Weave.",
       description := "Wardens patrol the fractures of Daelinar, hunting warped beasts and safeguarding settlements. They blend martial prowess with attunement to the land and the Weave.",
       tags := ["type:class", "faction:wardens", "role:martial", "role:utility", "status:core"],
       source := ⟨"Core Rulebook", some 80⟩,
       version := ⟨1, 0⟩,
       createdAt := "2025-11-24", updatedAt := "2025-11-24",
       mechanics := {
         primaryRoles := ["role:martial", "role:utility"],
         hitDie := "d10",
         resourceModel := "vigilance",
         startingTraits := ["trait-hunter-sense"],
         startingAbilities := ["ability-mark-prey"],
         progressionNotes := "Wardens gain new ways to control terrain, hunt ley-twisted creatures, and protect allies as they advance." } })]
  origins := []
  circles := []
  traits := [
    ("trait-tettari-survivor",
     { id := "trait-tettari-survivor", type := "trait", name := "Tettari Survivor",
       summary := "You’re hard to kill and harder to corner.",
       description := "You’ve learned to read danger and slip away before it closes its jaws. Tettari often survive what would annihilate others.",
       tags := ["type:trait", "tier:basic", "realm:surface", "status:core"],
       source := ⟨"Core Rulebook", some 43⟩,
       version := ⟨1, 0⟩,
       createdAt := "2025-11-24", updatedAt := "2025-11-24",
       mechanics := {
         rulesText := "When you would be reduced to 0 vitality by a single hit, you may instead drop to 1 vitality once per rest. In addition, you gain advantage on checks to notice ambushes or environmental hazards." } })]
  abilities := [
    ("ability-mark-prey",
     { id := "ability-mark-prey", type := "ability", name := "Mark Prey",
       summary := "Single out a target and hunt them relentlessly.",
       description := "You fix your attention on a single foe, reading their tells and exploiting every misstep.",
       tags := ["type:ability", "role:skirmisher", "role:martial", "tier:basic", "status:core"],
       source := ⟨"Core Rulebook", some 81⟩,
       version := ⟨1, 0⟩,
       createdAt := "2025-11-24", updatedAt := "2025-11-24",
       mechanics := {
         actionType := "action",
         range := "line of sight",
         duration := "scene",
         target := "one creature you can see",
         rulesText := "Choose a creature you can see and mark it as your prey. While the mark lasts, you gain a bonus to checks and attacks made to track, pursue, or harm that creature. If you mark a new target, the old mark ends." } })]
  items := []
  professions := [] }

end Part000

/-! ## Dataset views and reference resolution -/

namespace Library

/-- The eight category buckets of `library.js` through `RecordView`, in
source order, each with its expected record type. -/
def buckets (l : Lib) : List BucketView := [
  ⟨"race", l.races.map (fun p => ⟨p.1, p.2.id, p.2.type, p.2.tags⟩)⟩,
  ⟨"class", l.classes.map (fun p => ⟨p.1, p.2.id, p.2.type, p.2.tags⟩)⟩,
  ⟨"origin", l.origins.map (fun p => ⟨p.1, p.2.id, p.2.type, p.2.tags⟩)⟩,
  ⟨"circle", l.circles.map (fun p => ⟨p.1, p.2.id, p.2.type, p.2.tags⟩)⟩,
  ⟨"trait", l.traits.map (fun p => ⟨p.1, p.2.id, p.2.type, p.2.tags⟩)⟩,
  ⟨"ability", l.abilities.map (fun p => ⟨p.1, p.2.id, p.2.type, p.2.tags⟩)⟩,
  ⟨"item", l.items.map (fun p => ⟨p.1, p.2.id, p.2.type, p.2.tags⟩)⟩,
  ⟨"profession", l.professions.map (fun p => ⟨p.1, p.2.id, p.2.type, p.2.tags⟩)⟩]

/-- Keys of the races bucket. -/
def raceKeys (l : Lib) : List String := l.races.map (·.1)

/-- Keys of the traits bucket. -/
def traitKeys (l : Lib) : List String := l.traits.map (·.1)

/-- Keys of the abilities bucket. -/
def abilityKeys (l : Lib) : List String := l.abilities.map (·.1)

/-- Keys of the bucket a `grantedBy.type` value points at (`grantedBy.type`
ranges over race / class / circle / origin / trait / item). -/
def bucketKeysFor (l : Lib) (t : String) : List String :=
  if t == "race" then l.races.map (·.1)
  else if t == "class" then l.classes.map (·.1)
  else if t == "circle" then l.circles.map (·.1)
  else if t == "origin" then l.origins.map (·.1)
  else if t == "trait" then l.traits.map (·.1)
  else if t == "item" then l.items.map (·.1)
  else []

/-- Every referenced identifier of the dataset that does not resolve to a
record of its expected bucket: trait ids in `innateTraits`, ability ids in
`innateAbilities`, and `grantedBy.id` targets, in source order. -/
def danglingRefs (l : Lib) : List String :=
  (l.races.flatMap (fun p =>
    p.2.mechanics.innateTraits.filter (fun i => !(traitKeys l).contains i) ++
    p.2.mechanics.innateAbilities.filter (fun i => !(abilityKeys l).contains i))) ++
  (l.abilities.flatMap (fun p =>
    if (bucketKeysFor l p.2.grantedBy.type).contains p.2.grantedBy.id then []
    else [p.2.grantedBy.id]))

/-- Look a race up by key. -/
def lookupRace (l : Lib) (i : String) : Option Race :=
  (l.races.find? (fun p => p.1 == i)).map (·.2)

/-- Look an ability up by key. -/
def lookupAbility (l : Lib) (i : String) : Option Ability :=
  (l.abilities.find? (fun p => p.1 == i)).map (·.2)

/-- Abilities declaring `grantedBy.type = "race"` whose target race does not
exist in the races bucket. -/
def grantsWithMissingRace (l : Lib) : List String :=
  (l.abilities.filter (fun p =>
    p.2.grantedBy.type == "race" && !((raceKeys l).contains p.2.grantedBy.id))).map (·.1)

/-- Abilities declaring `grantedBy.type = "race"` whose target race does not
list the ability's id in its `mechanics.innateAbilities` (the asymmetric
back-references). -/
def asymmetricRaceGrants (l : Lib) : List String :=
  (l.abilities.filter (fun p =>
    p.2.grantedBy.type == "race" &&
    !((lookupRace l p.2.grantedBy.id).any
        (fun r => r.mechanics.innateAbilities.contains p.2.id)))).map (·.1)

/-- The `attributeMods` mappings of all races, in source order. -/
def raceAttributeMods (l : Lib) : List (List (String × Int)) :=
  l.races.map (·.2.mechanics.attributeMods)

end Library

/-- The eight category buckets of a variant dataset through `RecordView`, in
source order, each with its expected record type. -/
def variantBuckets (l : VLib) : List BucketView := [
  ⟨"race", l.races.map (fun p => ⟨p.1, p.2.id, p.2.type, p.2.tags⟩)⟩,
  ⟨"class", l.classes.map (fun p => ⟨p.1, p.2.id, p.2.type, p.2.tags⟩)⟩,
  ⟨"origin", l.origins.map (fun p => ⟨p.1, p.2.id, p.2.type, p.2.tags⟩)⟩,
  ⟨"circle", l.circles.map (fun p => ⟨p.1, p.2.id, p.2.type, p.2.tags⟩)⟩,
  ⟨"trait", l.traits.map (fun p => ⟨p.1, p.2.id, p.2.type, p.2.tags⟩)⟩,
  ⟨"ability", l.abilities.map (fun p => ⟨p.1, p.2.id, p.2.type, p.2.tags⟩)⟩,
  ⟨"item", l.items.map (fun p => ⟨p.1, p.2.id, p.2.type, p.2.tags⟩)⟩,
  ⟨"profession", l.professions.map (fun p => ⟨p.1, p.2.id, p.2.type, p.2.tags⟩)⟩]

/-- Every referenced identifier of a variant dataset that does not resolve to
a record of its expected bucket: race `innateTraits` / `innateAbilities` and
class `startingTraits` / `startingAbilities` (the variant ability schema has
no `grantedBy` field), in source order. -/
def variantDanglingRefs (l : VLib) : List String :=
  (l.races.flatMap (fun p =>
    p.2.mechanics.innateTraits.filter (fun i => !(l.traits.map (·.1)).contains i) ++
    p.2.mechanics.innateAbilities.filter (fun i => !(l.abilities.map (·.1)).contains i))) ++
  (l.classes.flatMap (fun p =>
    p.2.mechanics.startingTraits.filter (fun i => !(l.traits.map (·.1)).contains i) ++
    p.2.mechanics.startingAbilities.filter (fun i => !(l.abilities.map (·.1)).contains i)))

/-- The `attributeMods` mappings of all races of a variant dataset. -/
def variantRaceAttributeMods (l : VLib) : List (List (String × Int)) :=
  l.races.map (·.2.mechanics.attributeMods)

/-! ## Content Store

Modelled from the spec: no Content Store code exists under `src/` (the
repository is pure data), so `add(category, record)` and the skip-and-continue
loader are modelled from §4.3 and §7 of the specification. -/

/-- Modelled from the spec: the fixed set of category buckets of the Content
Store. -/
inductive StoreCategory where
  | races | classes | origins | circles | traits | abilities | items | professions
deriving DecidableEq, Repr

/-- Modelled from the spec: a record as the store sees it — an opaque unique
`id` plus its remaining fields, which the store does not interpret. -/
structure StoreRecord where
  id : String
  fields : List (String × String)
deriving DecidableEq, Repr

/-- Modelled from the spec: the Content Store — records grouped by category,
kept in insertion order. -/
abbrev Store := List (StoreCategory × StoreRecord)

/-- The ids already present in one category bucket of the store. -/
def idsInCategory (s : Store) (c : StoreCategory) : List String :=
  (s.filter (fun p => p.1 == c)).map (fun p => p.2.id)

/-- Modelled from the spec: the error taxonomy entry raised by the Content
Store on an insertion collision. -/
inductive StoreError where
  | duplicateId
deriving DecidableEq, Repr

/-- Result of one `add` call: the error, if any, and the resulting store. -/
structure AddResult where
  err : Option StoreError
  store : Store
deriving DecidableEq, Repr

/-- Modelled from the spec: `add(category, record)` fails with `DuplicateId`
when the record's id collides with an id already present in that category,
leaving the store unchanged; otherwise it appends the record to the store. -/
def addRecord (s : Store) (c : StoreCategory) (r : StoreRecord) : AddResult :=
  if r.id ∈ idsInCategory s c then ⟨some StoreError.duplicateId, s⟩
  else ⟨none, s ++ [(c, r)]⟩

/-- Modelled from the spec: the skip-and-continue loader — every pair is
offered to `add`; a `DuplicateId` failure is counted and the load continues
with the rest.  Returns the final store and the number of rejected records. -/
def loadRecords (s : Store) : List (StoreCategory × StoreRecord) → Store × Nat
  | [] => (s, 0)
  | (c, r) :: rest =>
    let res := addRecord s c r
    let (s2, n) := loadRecords res.store rest
    (s2, n + (if res.err.isSome then 1 else 0))

/-! ## Claims -/

/-- C1 (counterexample): reference closure fails on the data.  In
`library.js` the race `race-animation` lists the innate ability
`"ability-living-touch"`, but no ability record with that key exists (the
intended record is keyed `"ability-internal-spark"` and merely *named*
"Living Touch"); in `GRPGLibrary0.0.1.js` the class `class-warden` lists the
starting trait `"trait-hunter-sense"`, which exists in no traits bucket. -/
theorem reference_closure_counterexample :
    (Library.lookupRace Library.GRPG_LIBRARY "race-animation").any
      (fun r => r.mechanics.innateAbilities.contains "ability-living-touch") = true
    ∧ Library.lookupAbility Library.GRPG_LIBRARY "ability-living-touch" = none
    ∧ "trait-hunter-sense" ∈ variantDanglingRefs GRPGLibrary001.GRPG_LIBRARY := by
  refine ⟨by decide, by decide, by decide⟩

/-- C1 (amended): every identifier held in a reference field resolves to an
existing record of the expected category bucket, with exactly two exceptions:
`"ability-living-touch"` in `race-animation.mechanics.innateAbilities` of
`library.js`, and `"trait-hunter-sense"` in
`class-warden.mechanics.startingTraits` of both variant datasets.  These are
the complete lists of dangling references of the three datasets. -/
theorem reference_closure_amended :
    Library.danglingRefs Library.GRPG_LIBRARY = ["ability-living-touch"]
    ∧ variantDanglingRefs GRPGLibrary001.GRPG_LIBRARY = ["trait-hunter-sense"]
    ∧ variantDanglingRefs Part000.GRPG_LIBRARY = ["trait-hunter-sense"] := by
  refine ⟨by decide, by decide, by decide⟩

/-- C2 (counterexample): tag closure fails on `library.js`.  The ability
`ability-tettari-blink` carries the tag `"category:combat"`, which is not a
key of that dataset's `TAG_DEFINITIONS` (whose only entries are `type:` tags),
so the whole-dataset closure check is false. -/
theorem tag_closure_counterexample :
    (Library.lookupAbility Library.GRPG_LIBRARY "ability-tettari-blink").any
      (fun a => a.tags.contains "category:combat") = true
    ∧ lookupTag Library.TAG_DEFINITIONS "category:combat" = none
    ∧ tagClosure (Library.buckets Library.GRPG_LIBRARY) Library.TAG_DEFINITIONS = false := by
  refine ⟨by decide, by decide, by decide⟩

/-- C2 (amended): in the two variant datasets every tag of every record is a
key of that dataset's tag dictionary; in `library.js` a tag of a record is a
key of `TAG_DEFINITIONS` exactly when its category prefix is `type` — every
ability's `category:…` and `source:…` tag is absent from that dictionary. -/
theorem tag_closure_amended :
    tagClosure (variantBuckets GRPGLibrary001.GRPG_LIBRARY) GRPGLibrary001.TAG_DEFINITIONS = true
    ∧ tagClosure (variantBuckets Part000.GRPG_LIBRARY) Part000.TAG_DEFINITIONS = true
    ∧ tagClosureIffType (Library.buckets Library.GRPG_LIBRARY) Library.TAG_DEFINITIONS = true := by
  refine ⟨by decide, by decide, by decide⟩

/-- C3 (counterexample): back-reference symmetry fails on `library.js`.  The
ability `ability-internal-spark` declares
`grantedBy = {type: "race", id: "race-animation"}`, the race exists, but
`race-animation.mechanics.innateAbilities` does not contain
`"ability-internal-spark"` (it lists `"ability-living-touch"` instead). -/
theorem granted_by_symmetry_counterexample :
    (Library.lookupAbility Library.GRPG_LIBRARY "ability-internal-spark").any
      (fun a => a.grantedBy == ⟨"race", "race-animation"⟩) = true
    ∧ (Library.lookupRace Library.GRPG_LIBRARY "race-animation").any
        (fun r => r.mechanics.innateAbilities.contains "ability-internal-spark") = false := by
  refine ⟨by decide, by decide⟩

/-- C3 (amended): for every ability of `library.js` declaring
`grantedBy = {type: "race", id: R}`, the race `R` exists in the races bucket;
and the race's `mechanics.innateAbilities` lists the ability's id for every
such ability except exactly `"ability-internal-spark"` (the one asymmetric
reference).  The variant datasets' ability schema has no `grantedBy` field,
so the property is vacuous there. -/
theorem granted_by_symmetry_amended :
    Library.grantsWithMissingRace Library.GRPG_LIBRARY = []
    ∧ Library.asymmetricRaceGrants Library.GRPG_LIBRARY = ["ability-internal-spark"] := by
  refine ⟨by decide, by decide⟩

/-- C4: in all three datasets, every record's `type` field matches its
category bucket, and its `tags` array contains the tag `"type:" ++ type`. -/
theorem type_tag_agreement :
    typeTagAgreement (Library.buckets Library.GRPG_LIBRARY) = true
    ∧ typeTagAgreement (variantBuckets GRPGLibrary001.GRPG_LIBRARY) = true
    ∧ typeTagAgreement (variantBuckets Part000.GRPG_LIBRARY) = true := by
  refine ⟨by decide, by decide, by decide⟩

/-- C5: within each dataset the `id` fields of all records across all
category buckets are pairwise distinct, and every id consists only of
lowercase letters and dashes. -/
theorem id_uniqueness_and_pattern :
    (allIds (Library.buckets Library.GRPG_LIBRARY)).Nodup
    ∧ (allIds (Library.buckets Library.GRPG_LIBRARY)).all idPatternOK = true
    ∧ (allIds (variantBuckets GRPGLibrary001.GRPG_LIBRARY)).Nodup
    ∧ (allIds (variantBuckets GRPGLibrary001.GRPG_LIBRARY)).all idPatternOK = true
    ∧ (allIds (variantBuckets Part000.GRPG_LIBRARY)).Nodup
    ∧ (allIds (variantBuckets Part000.GRPG_LIBRARY)).all idPatternOK = true := by
  refine ⟨by decide, by decide, by decide, by decide, by decide, by decide⟩

/-- C6: in each of the three tag dictionaries, every tag name contains a
colon and the entry's `category` field equals the substring before the first
colon (so `"source:supplement:wardens"` has category `"source"`). -/
theorem tag_name_syntax :
    tagDictSyntax Library.TAG_DEFINITIONS = true
    ∧ tagDictSyntax GRPGLibrary001.TAG_DEFINITIONS = true
    ∧ tagDictSyntax Part000.TAG_DEFINITIONS = true
    ∧ tagCategory "source:supplement:wardens" = "source" := by
  refine ⟨by decide, by decide, by decide, by decide⟩

/-- C7: in every race's `attributeMods` mapping of each dataset, every choice
group — the keys sharing the same `_X` suffix of underscore plus one
uppercase letter — has at least two candidate keys. -/
theorem choice_group_shape :
    (Library.raceAttributeMods Library.GRPG_LIBRARY).all choiceGroupsOK = true
    ∧ (variantRaceAttributeMods GRPGLibrary001.GRPG_LIBRARY).all choiceGroupsOK = true
    ∧ (variantRaceAttributeMods Part000.GRPG_LIBRARY).all choiceGroupsOK = true := by
  refine ⟨by decide, by decide, by decide⟩

/-- C8: `add(category, record)` fails with `DuplicateId` exactly when the
record's id collides with an id already present in that category; on such a
failure the store is left unchanged; and the failure never aborts the rest of
the load — the loader always continues with the remaining records. -/
theorem duplicate_id_atomicity (s : Store) (c : StoreCategory) (r : StoreRecord) :
    ((addRecord s c r).err = some StoreError.duplicateId ↔ r.id ∈ idsInCategory s c)
    ∧ ((addRecord s c r).err.isSome → (addRecord s c r).store = s)
    ∧ (∀ rest, (loadRecords s ((c, r) :: rest)).1 = (loadRecords (addRecord s c r).store rest).1) := by
  by_cases h : r.id ∈ idsInCategory s c <;>
    simp [addRecord, h, loadRecords]

/-- C8 (witness): a concrete duplicate insertion — the store already holds a
races record with id `"race-tettari"`; adding another record with the same id
and different fields reports `DuplicateId` and leaves the store unchanged. -/
theorem duplicate_id_atomicity_witness :
    (addRecord [(StoreCategory.races, ⟨"race-tettari", []⟩)] StoreCategory.races
        ⟨"race-tettari", [("name", "Impostor")]⟩).store
      = [(StoreCategory.races, ⟨"race-tettari", []⟩)]
    ∧ ((addRecord [(StoreCategory.races, ⟨"race-tettari", []⟩)] StoreCategory.races
        ⟨"race-tettari", [("name", "Impostor")]⟩).err = some StoreError.duplicateId
      ↔ "race-tettari" ∈
          idsInCategory [(StoreCategory.races, ⟨"race-tettari", []⟩)] StoreCategory.races) :=
  ⟨(duplicate_id_atomicity [(StoreCategory.races, ⟨"race-tettari", []⟩)] StoreCategory.races
      ⟨"race-tettari", [("name", "Impostor")]⟩).2.1 (by decide),
   (duplicate_id_atomicity [(StoreCategory.races, ⟨"race-tettari", []⟩)] StoreCategory.races
      ⟨"race-tettari", [("name", "Impostor")]⟩).1⟩

/-- C9: in every category bucket of all three datasets, every record is
stored under exactly its own `id` field. -/
theorem key_id_agreement :
    keyIdAgreement (Library.buckets Library.GRPG_LIBRARY) = true
    ∧ keyIdAgreement (variantBuckets GRPGLibrary001.GRPG_LIBRARY) = true
    ∧ keyIdAgreement (variantBuckets Part000.GRPG_LIBRARY) = true := by
  refine ⟨by decide, by decide, by decide⟩

/-- C10: the `GRPG_LIBRARY` value of `src/GRPGLibrary0.0.1.js` and the
`window.GRPG_LIBRARY` value of `src/unnamed/part_000` are equal as data:
same `meta` block, same tag dictionary, and identical records in every
category bucket. -/
theorem variant_equivalence :
    GRPGLibrary001.GRPG_LIBRARY = Part000.GRPG_LIBRARY := rfl
